import Mathlib

/-!
Verification of the snapshot/stream reconciliation logic of `mimir/plot.py`.

The development shallowly embeds the functions of `src/mimir/plot.py`:
`update` (the per-envelope reconciler, lines 69-94), the snapshot projection
loop of `get_socket` (lines 58-64), and the driving loops of `serve_plot`
(lines 117-118) and `notebook_plot` (lines 145-147).  The live channel is
modelled as the list of envelopes still to be delivered; `recv` (imported
from `mimir.stream`, whose source is not part of this tree) is modelled
from the specification.  Scalar payload values are modelled as integers;
none of the reconciliation logic inspects a value, only key presence.
-/

namespace Mimir

/-- A log entry: the items of the JSON object delivered as an envelope's
payload, a finite map from field name to scalar value (spec section 3,
LogEntry).  Keys are unique in a Python dict; the model takes the first
binding. -/
abbrev Entry := List (String × Int)

/-- An envelope: a sequence number paired with one log entry
(spec section 3, Envelope; `recv` in `plot.py` line 89 returns exactly
this pair). -/
abbrev Envelope := Nat × Entry

/-- Membership test `k in entry` of Python (lines 61 and 90). -/
def hasKey (entry : Entry) (k : String) : Bool :=
  (entry.lookup k).isSome

/-- Subscription `entry[k]` of Python (lines 62, 64, 92, 93).  In the source
it is only evaluated under a `k in entry` guard, so the default value of the
total model is never reached on the guarded paths. -/
def getV (entry : Entry) (k : String) : Int :=
  (entry.lookup k).getD 0

/-- The `plot.data_source.data` dict manipulated by `update`: the backing
x and y columns of the plot (lines 92-94). -/
structure Data where
  x : List Int
  y : List Int
  deriving DecidableEq

/-- Body of `update` after the receive, lines 90-94 of `plot.py`:

if sequence > init_sequence and x_key in entry and y_key in entry:
    x = plot.data_source.data['x'] + [entry[x_key]]
    y = plot.data_source.data['y'] + [entry[y_key]]
    plot.data_source.data = dict(x=x, y=y)

The quoted code rebuilds both columns and replaces the whole data dict;
nothing is mutated in place, and on the else path nothing happens. -/
def applyRecord (x_key y_key : String) (init_sequence sequence : Nat)
    (entry : Entry) (d : Data) : Data :=
  if decide (sequence > init_sequence) && hasKey entry x_key && hasKey entry y_key then
    { x := d.x ++ [getV entry x_key], y := d.y ++ [getV entry y_key] }
  else d

/-- Modelled from the spec: `recv` is imported from `mimir.stream`, whose
source is not in this tree.  Spec section 6: the subscribe channel delivers
one `(sequenceNumber, payload)` pair per message, no batching; section 5:
the read blocks until the next envelope is available.  The channel is
modelled as the list of envelopes not yet delivered and `recv` takes the
next one; `none` is the blocked state (nothing available). -/
def recv : List Envelope → Option (Envelope × List Envelope)
  | [] => none
  | e :: rest => some (e, rest)

/-- The `update` callback, lines 69-94 of `plot.py`: one receive from the
subscriber, then the guarded append `applyRecord`.  It returns the remaining
channel and the new plot data.  On a blocked channel (no envelope available)
nothing happens; the real call would block inside `recv`. -/
def update (x_key y_key : String) (init_sequence : Nat)
    (chan : List Envelope) (d : Data) : List Envelope × Data :=
  match recv chan with
  | none => (chan, d)
  | some ((sequence, entry), rest) =>
      (rest, applyRecord x_key y_key init_sequence sequence entry d)

/-- The driving loops of `serve_plot` (periodic callback on
`partial(update, x_key, y_key, sequence, subscriber, plot)`, lines 117-118)
and `notebook_plot` (`while True: update(x_key, y_keys, sequence, ...)`,
lines 145-147): `update` is invoked over and over with the same captured
`sequence`, until the channel has nothing more to deliver. -/
def driveLoop (x_key y_key : String) (init_sequence : Nat) :
    List Envelope → Data → Data
  | [], d => d
  | e :: rest, d =>
      driveLoop x_key y_key init_sequence rest
        (update x_key y_key init_sequence (e :: rest) d).2

/-- Completeness test of the snapshot projection, line 61 of `plot.py`:
`x_key in entry and all(y_key in entry for y_key in y_keys)`. -/
def entryComplete (x_key : String) (y_keys : List String) (entry : Entry) : Bool :=
  hasKey entry x_key && y_keys.all (fun k => hasKey entry k)

/-- The snapshot-seeded series of `get_socket`: the x list and the y dict
of per-key lists (lines 54-56).  The y dict is modelled as a total map so
that looking a key up is written `s.y k`; only the configured y-keys are
ever read or written. -/
structure SnapSeries where
  x : List Int
  y : String → List Int

/-- One iteration of the inner loop on lines 63-64 of `plot.py`:
`y[y_key].append(entry[y_key])`. -/
def yUpd (entry : Entry) (y : String → List Int) (y_key : String) :
    String → List Int :=
  fun k => if k = y_key then y k ++ [getV entry y_key] else y k

/-- One iteration of the snapshot loop, lines 60-64 of `plot.py`:

for entry in entries:
    if x_key in entry and all(y_key in entry for y_key in y_keys):
        x.append(entry[x_key])
        for y_key in y_keys:
            y[y_key].append(entry[y_key])
-/
def snapStep (x_key : String) (y_keys : List String)
    (s : SnapSeries) (entry : Entry) : SnapSeries :=
  if entryComplete x_key y_keys entry then
    { x := s.x ++ [getV entry x_key], y := y_keys.foldl (yUpd entry) s.y }
  else s

/-- The snapshot projection of `get_socket` over a whole snapshot, starting
from `x = []` (line 55) and a y dict holding an empty list per configured
key (the evident reading of line 56, `dict(key=[] for key in y_keys)`,
which as written does not even parse - see `loadPlotModule` below; the
everywhere-empty map agrees with it on every key the loop touches). -/
def snapLoad (x_key : String) (y_keys : List String)
    (entries : List Entry) : SnapSeries :=
  entries.foldl (snapStep x_key y_keys) { x := [], y := fun _ => [] }

/-- Errors a Python session can surface while loading or running the module:
`parseError n` models a SyntaxError reported at line `n` while compiling the
module, `nameError s` a NameError for the unbound name `s` at run time. -/
inductive PyErr where
  | parseError (line : Nat)
  | nameError (name : String)
  deriving DecidableEq

/-- Tokens of a Python call-argument list, as far as line 56 of `plot.py`
needs them: names, `=`, the empty list display `[]`, and the keywords
`for` and `in` of a comprehension clause. -/
inductive Tok where
  | name (s : String)
  | eq
  | lbrack
  | rbrack
  | kwFor
  | kwIn
  deriving DecidableEq

/-- Parser for the `test` nonterminal of Python's grammar, restricted to the
two atom forms occurring on line 56: a bare name and the empty list display
`[]`.  Returns the unconsumed remainder. -/
def parseTest : List Tok → Option (List Tok)
  | Tok.name _ :: rest => some rest
  | Tok.lbrack :: Tok.rbrack :: rest => some rest
  | _ => none

/-- Parser for Python's `comp_for: 'for' exprlist 'in' or_test`, with a
single name as target. -/
def parseCompFor : List Tok → Option (List Tok)
  | Tok.kwFor :: Tok.name _ :: Tok.kwIn :: rest => parseTest rest
  | _ => none

/-- Parser for Python's call-argument rule,
`argument: test [comp_for] | test '=' test` (Grammar/Grammar of CPython;
the PEG grammar of current CPython accepts the same strings here): a bare
generator expression is an argument, a keyword argument's value is a plain
`test`, and no production places a `comp_for` after `test '=' test`. -/
def parseArgument (ts : List Tok) : Option (List Tok) :=
  match parseTest ts with
  | none => none
  | some rest =>
      match rest with
      | Tok.eq :: rest2 => parseTest rest2
      | _ =>
          match parseCompFor rest with
          | some rest2 => some rest2
          | none => some rest

/-- A token string is valid as the complete (single-slot) argument list of a
call when the argument rule consumes it exactly. -/
def singleArgumentValid (ts : List Tok) : Bool :=
  match parseArgument ts with
  | some [] => true
  | _ => false

/-- The argument of the call on line 56 of `plot.py`,
`dict(key=[] for key in y_keys)`, tokenized: `key` `=` `[` `]` `for`
`key` `in` `y_keys`. -/
def line56Tokens : List Tok :=
  [Tok.name "key", Tok.eq, Tok.lbrack, Tok.rbrack,
   Tok.kwFor, Tok.name "key", Tok.kwIn, Tok.name "y_keys"]

/-- Loading the module `mimir.plot`: Python compiles the whole file before
executing anything, so the module loads only if every statement parses.
Line 56 is the one statement at issue; if its argument list were valid the
compile would succeed. -/
def loadPlotModule : Except PyErr Unit :=
  if singleArgumentValid line56Tokens then Except.ok ()
  else Except.error (PyErr.parseError 56)

/-- Names resolvable inside the body of `get_socket`, transcribed from the
source: its parameters (lines 13-14), the locals its body assigns, the
module-level names of `plot.py` (imports of lines 2-10 and the four module
functions), and the builtins the body uses.  Python resolves a name against
exactly these three scopes. -/
def getSocketScope : List String :=
  ["x_key", "y_key", "host", "push_port", "router_port", "persistent", "kwargs",
   "ctx", "subscriber", "sequence", "x", "y", "entries", "entry",
   "argparse", "partial", "zmq", "push_session", "figure", "curdoc",
   "output_notebook", "show", "push_notebook",
   "get_snapshot", "recv", "connect",
   "get_socket", "update", "serve_plot", "notebook_plot",
   "dict", "all", "True", "False"]

/-- The first error surfaced by any attempt to call `get_socket`, for every
combination of arguments: importing `mimir.plot` is a precondition of any
call and must compile the module; and were line 56 syntactically valid, the
iterable `y_keys` of its generator expression, evaluated eagerly when the
expression is built, is a name bound in no scope visible to `get_socket`,
so execution would stop there with a NameError before anything else in the
body runs.  `none` would mean line 56 can execute. -/
def get_socket_failure : Option PyErr :=
  match loadPlotModule with
  | Except.error e => some e
  | Except.ok _ =>
      if "y_keys" ∈ getSocketScope then none
      else some (PyErr.nameError "y_keys")

/-! Helper lemmas shared by the claim theorems. -/

/-- A stale envelope (sequence at most the captured threshold) leaves the
plot data untouched: the guard on line 90 is false. -/
theorem applyRecord_stale (x_key y_key : String) (S sq : Nat) (entry : Entry)
    (d : Data) (h : sq ≤ S) :
    applyRecord x_key y_key S sq entry d = d := by
  unfold applyRecord
  rw [if_neg]
  simp [Nat.not_lt.mpr h]

/-- An envelope missing the x-key or the y-key leaves the plot data
untouched. -/
theorem applyRecord_incomplete (x_key y_key : String) (S sq : Nat) (entry : Entry)
    (d : Data) (h : (hasKey entry x_key && hasKey entry y_key) = false) :
    applyRecord x_key y_key S sq entry d = d := by
  unfold applyRecord
  rw [if_neg]
  intro hc
  rw [Bool.and_assoc] at hc
  exact absurd (Bool.and_elim_right hc) (by simp [h])

/-- A fresh envelope carrying both configured keys appends exactly its
projected pair. -/
theorem applyRecord_fresh (x_key y_key : String) (S sq : Nat) (entry : Entry)
    (d : Data) (hs : S < sq) (hx : hasKey entry x_key = true)
    (hy : hasKey entry y_key = true) :
    applyRecord x_key y_key S sq entry d =
      { x := d.x ++ [getV entry x_key], y := d.y ++ [getV entry y_key] } := by
  unfold applyRecord
  rw [if_pos]
  simp [hx, hy, hs]

/-- Unfolding one step of the driving loop. -/
theorem driveLoop_cons (x_key y_key : String) (S sq : Nat) (entry : Entry)
    (rest : List Envelope) (d : Data) :
    driveLoop x_key y_key S ((sq, entry) :: rest) d =
      driveLoop x_key y_key S rest (applyRecord x_key y_key S sq entry d) := rfl

/-- Each envelope preserves equality of the two column lengths. -/
theorem applyRecord_length (x_key y_key : String) (S sq : Nat) (entry : Entry)
    (d : Data) (h : d.x.length = d.y.length) :
    (applyRecord x_key y_key S sq entry d).x.length =
      (applyRecord x_key y_key S sq entry d).y.length := by
  unfold applyRecord
  by_cases hc : (decide (sq > S) && hasKey entry x_key && hasKey entry y_key) = true
  · rw [if_pos hc]; simp [h]
  · rw [if_neg hc]; exact h

/-- The inner loop of the snapshot projection does not touch keys outside
the configured list. -/
theorem yFold_of_not_mem (entry : Entry) (ks : List String) :
    ∀ (y : String → List Int) (k : String), k ∉ ks →
      (ks.foldl (yUpd entry) y) k = y k := by
  induction ks with
  | nil => intro y k _; rfl
  | cons a t ih =>
      intro y k hk
      rw [List.foldl_cons, ih _ k (fun h => hk (List.mem_cons_of_mem a h))]
      have hka : k ≠ a := fun h => hk (h ▸ List.mem_cons_self a t)
      simp [yUpd, hka]

/-- With distinct configured keys, the inner loop of the snapshot projection
appends exactly one value to each configured key's list. -/
theorem yFold_of_mem (entry : Entry) (ks : List String) :
    ks.Nodup → ∀ (y : String → List Int) (k : String), k ∈ ks →
      (ks.foldl (yUpd entry) y) k = y k ++ [getV entry k] := by
  induction ks with
  | nil => intro _ y k hk; cases hk
  | cons a t ih =>
      intro hnd y k hk
      rw [List.foldl_cons]
      rcases List.mem_cons.mp hk with h | h
      · subst h
        rw [yFold_of_not_mem entry t _ k (List.nodup_cons.mp hnd).1]
        simp [yUpd]
      · have hka : k ≠ a := fun he => (List.nodup_cons.mp hnd).1 (he ▸ h)
        rw [ih (List.nodup_cons.mp hnd).2 _ k h]
        simp [yUpd, hka]

/-- One snapshot entry preserves the per-key length invariant. -/
theorem snapStep_preserves (x_key : String) (y_keys : List String)
    (hnd : y_keys.Nodup) (s : SnapSeries) (entry : Entry)
    (hinv : ∀ k ∈ y_keys, (s.y k).length = s.x.length) :
    ∀ k ∈ y_keys, ((snapStep x_key y_keys s entry).y k).length =
      (snapStep x_key y_keys s entry).x.length := by
  intro k hk
  unfold snapStep
  by_cases h : entryComplete x_key y_keys entry = true
  · rw [if_pos h]
    show ((y_keys.foldl (yUpd entry) s.y) k).length = (s.x ++ [getV entry x_key]).length
    rw [yFold_of_mem entry y_keys hnd s.y k hk]
    simp [hinv k hk]
  · rw [if_neg h]
    exact hinv k hk

/-- The snapshot loop preserves the per-key length invariant. -/
theorem snapFold_preserves (x_key : String) (y_keys : List String)
    (hnd : y_keys.Nodup) (entries : List Entry) :
    ∀ s : SnapSeries, (∀ k ∈ y_keys, (s.y k).length = s.x.length) →
      ∀ k ∈ y_keys,
        ((entries.foldl (snapStep x_key y_keys) s).y k).length =
          (entries.foldl (snapStep x_key y_keys) s).x.length := by
  induction entries with
  | nil => intro s hinv; exact hinv
  | cons e t ih =>
      intro s hinv
      rw [List.foldl_cons]
      exact ih _ (snapStep_preserves x_key y_keys hnd s e hinv)

/-! Claim theorems. -/

/-- C1: with the initial threshold `S` captured as `init_sequence`, no
envelope with sequence number at most `S` ever appends to the series, and
replaying any batch of envelopes whose sequence numbers are all at most `S`
(in particular the ones already contained in the snapshot) produces zero
additional series entries. -/
theorem monotonic_filter (x_key y_key : String) (S : Nat) :
    (∀ (sq : Nat) (entry : Entry) (d : Data), sq ≤ S →
        applyRecord x_key y_key S sq entry d = d) ∧
    (∀ (envs : List Envelope) (d : Data), (∀ e ∈ envs, e.1 ≤ S) →
        driveLoop x_key y_key S envs d = d) := by
  constructor
  · intro sq entry d h
    exact applyRecord_stale x_key y_key S sq entry d h
  · intro envs
    induction envs with
    | nil => intro d _; rfl
    | cons e t ih =>
        intro d h
        obtain ⟨sq, entry⟩ := e
        rw [driveLoop_cons,
          applyRecord_stale x_key y_key S sq entry d (h (sq, entry) (List.mem_cons_self _ _))]
        exact ih d (fun e he => h e (List.mem_cons_of_mem _ he))

/-- Witness for C1 at the scenario values: a stale envelope with sequence 3
under threshold 5 changes nothing, and replaying two snapshot-contained
envelopes appends nothing. -/
theorem monotonic_filter_witness :
    applyRecord "x" "y" 5 3 [("x", 1), ("y", 10)] { x := [1], y := [10] } =
      { x := [1], y := [10] } ∧
    driveLoop "x" "y" 5 [(3, [("x", 1), ("y", 10)]), (5, [("x", 2), ("y", 20)])]
      { x := [1], y := [10] } = { x := [1], y := [10] } :=
  ⟨(monotonic_filter "x" "y" 5).1 3 _ _ (by decide),
   (monotonic_filter "x" "y" 5).2 _ _ (by decide)⟩

/-- C2 counterexample: on the spec's scenario (snapshot sequence 5, series
x = [1,2], y = [10,20]; live envelopes seq 3, seq 6, and the identical seq 6
again) the code does not produce the claimed final series x = [1,2,3],
y = [10,20,30]: the duplicate is applied a second time. -/
theorem duplicate_scenario_claim_fails :
    driveLoop "x" "y" 5
      [(3, [("x", 1), ("y", 10)]), (6, [("x", 3), ("y", 30)]), (6, [("x", 3), ("y", 30)])]
      { x := [1, 2], y := [10, 20] } ≠ { x := [1, 2, 3], y := [10, 20, 30] } := by
  decide

/-- C2 amended: on that scenario the seq-3 envelope is dropped, but since
`update` compares every envelope against the unchanged `init_sequence = 5`,
the duplicate seq-6 envelope passes the guard again and the final series is
x = [1,2,3,3], y = [10,20,30,30]. -/
theorem duplicate_envelope_reapplied :
    driveLoop "x" "y" 5
      [(3, [("x", 1), ("y", 10)]), (6, [("x", 3), ("y", 30)]), (6, [("x", 3), ("y", 30)])]
      { x := [1, 2], y := [10, 20] } = { x := [1, 2, 3, 3], y := [10, 20, 30, 30] } := by
  decide

/-- C3 counterexample: feeding from threshold 0 an envelope with sequence 1
that lacks the y-key and then a resend of sequence 1 carrying both keys, the
claim predicts the resend is dropped (the malformed envelope supposedly set
`lastApplied = 1`), i.e. a still-empty series; the code applies the resend. -/
theorem malformed_resend_claim_fails :
    driveLoop "x" "y" 0 [(1, [("x", 5)]), (1, [("x", 5), ("y", 50)])]
      { x := [], y := [] } ≠ { x := [], y := [] } := by
  decide

/-- C3 amended: an envelope with sequence above `init_sequence` that lacks a
configured key appends nothing, but no threshold is advanced (`update` keeps
no last-applied state), so a later re-delivery of the same sequence number
carrying all configured keys is applied, not dropped. -/
theorem malformed_drop_keeps_threshold (x_key y_key : String) (S sq : Nat)
    (entry entry2 : Entry) (d : Data)
    (hmiss : (hasKey entry x_key && hasKey entry y_key) = false)
    (hs : S < sq) (hx : hasKey entry2 x_key = true) (hy : hasKey entry2 y_key = true) :
    applyRecord x_key y_key S sq entry d = d ∧
    driveLoop x_key y_key S [(sq, entry), (sq, entry2)] d =
      { x := d.x ++ [getV entry2 x_key], y := d.y ++ [getV entry2 y_key] } := by
  refine ⟨applyRecord_incomplete x_key y_key S sq entry d hmiss, ?_⟩
  rw [driveLoop_cons, applyRecord_incomplete x_key y_key S sq entry d hmiss,
    driveLoop_cons, applyRecord_fresh x_key y_key S sq entry2 d hs hx hy]
  rfl

/-- Witness for C3's amended statement at threshold 0, sequence 1, a payload
missing the y-key, and a complete resend. -/
theorem malformed_drop_keeps_threshold_witness :
    applyRecord "x" "y" 0 1 [("x", 5)] { x := [], y := [] } = { x := [], y := [] } ∧
    driveLoop "x" "y" 0 [(1, [("x", 5)]), (1, [("x", 5), ("y", 50)])] { x := [], y := [] } =
      { x := [] ++ [getV [("x", 5), ("y", 50)] "x"],
        y := [] ++ [getV [("x", 5), ("y", 50)] "y"] } :=
  malformed_drop_keeps_threshold "x" "y" 0 1 [("x", 5)] [("x", 5), ("y", 50)]
    { x := [], y := [] } (by decide) (by decide) (by decide) (by decide)

/-- C4: a record is projected only when the x-key and every configured y-key
is present.  On the live path a record missing either key appends nothing
and a fresh record carrying both keys appends exactly one (x, y) pair; on
the snapshot path an entry that is not complete (x-key and all y-keys
present) changes nothing, and a complete one appends exactly one x value. -/
theorem projection_all_or_nothing (x_key y_key : String) (S : Nat)
    (y_keys : List String) :
    (∀ (sq : Nat) (entry : Entry) (d : Data),
        (hasKey entry x_key && hasKey entry y_key) = false →
        applyRecord x_key y_key S sq entry d = d) ∧
    (∀ (sq : Nat) (entry : Entry) (d : Data), S < sq →
        hasKey entry x_key = true → hasKey entry y_key = true →
        applyRecord x_key y_key S sq entry d =
          { x := d.x ++ [getV entry x_key], y := d.y ++ [getV entry y_key] }) ∧
    (∀ (entry : Entry) (s : SnapSeries), entryComplete x_key y_keys entry = false →
        snapStep x_key y_keys s entry = s) ∧
    (∀ (entry : Entry) (s : SnapSeries), entryComplete x_key y_keys entry = true →
        (snapStep x_key y_keys s entry).x = s.x ++ [getV entry x_key]) := by
  refine ⟨fun sq entry d h => applyRecord_incomplete x_key y_key S sq entry d h,
    fun sq entry d hs hx hy => applyRecord_fresh x_key y_key S sq entry d hs hx hy,
    fun entry s h => ?_, fun entry s h => ?_⟩
  · simp [snapStep, h]
  · simp [snapStep, h]

/-- Witness for C4: with configured keys x and y-keys [y, z], a record
missing z changes neither path, while complete records append one pair on
the live path and one x value on the snapshot path. -/
theorem projection_all_or_nothing_witness :
    applyRecord "x" "y" 5 7 [("x", 1)] { x := [], y := [] } = { x := [], y := [] } ∧
    applyRecord "x" "y" 5 7 [("x", 1), ("y", 2)] { x := [], y := [] } =
      { x := [] ++ [getV [("x", 1), ("y", 2)] "x"],
        y := [] ++ [getV [("x", 1), ("y", 2)] "y"] } ∧
    snapStep "x" ["y", "z"] { x := [], y := fun _ => [] } [("x", 1), ("y", 2)] =
      { x := [], y := fun _ => [] } ∧
    (snapStep "x" ["y", "z"] { x := [], y := fun _ => [] }
        [("x", 1), ("y", 2), ("z", 3)]).x =
      [] ++ [getV [("x", 1), ("y", 2), ("z", 3)] "x"] :=
  ⟨(projection_all_or_nothing "x" "y" 5 ["y", "z"]).1 7 _ _ (by decide),
   (projection_all_or_nothing "x" "y" 5 ["y", "z"]).2.1 7 _ _ (by decide) (by decide) (by decide),
   (projection_all_or_nothing "x" "y" 5 ["y", "z"]).2.2.1 _ _ (by decide),
   (projection_all_or_nothing "x" "y" 5 ["y", "z"]).2.2.2 _ _ (by decide)⟩

/-- C5: the x column and each configured y column of the snapshot-seeded
series have equal length (for distinct configured keys), and processing any
number of live envelopes preserves equality of the x and y column lengths. -/
theorem series_length_invariant (x_key : String) (y_keys : List String)
    (entries : List Entry) (y_key : String) (S : Nat) (envs : List Envelope) :
    (y_keys.Nodup → ∀ k ∈ y_keys,
        ((snapLoad x_key y_keys entries).y k).length =
          (snapLoad x_key y_keys entries).x.length) ∧
    (∀ d : Data, d.x.length = d.y.length →
        (driveLoop x_key y_key S envs d).x.length =
          (driveLoop x_key y_key S envs d).y.length) := by
  constructor
  · intro hnd k hk
    exact snapFold_preserves x_key y_keys hnd entries
      { x := [], y := fun _ => [] } (fun _ _ => rfl) k hk
  · induction envs with
    | nil => intro d h; exact h
    | cons e t ih =>
        intro d h
        obtain ⟨sq, entry⟩ := e
        rw [driveLoop_cons]
        exact ih _ (applyRecord_length x_key y_key S sq entry d h)

/-- Witness for C5: a two-key snapshot over two entries (one of them
incomplete), followed by one applied live envelope. -/
theorem series_length_invariant_witness :
    ((snapLoad "i" ["a", "b"]
        [[("i", 1), ("a", 2), ("b", 3)], [("i", 4), ("a", 5)]]).y "a").length =
      (snapLoad "i" ["a", "b"]
        [[("i", 1), ("a", 2), ("b", 3)], [("i", 4), ("a", 5)]]).x.length ∧
    (driveLoop "i" "y" 0 [(1, [("i", 5), ("y", 50)])] { x := [], y := [] }).x.length =
      (driveLoop "i" "y" 0 [(1, [("i", 5), ("y", 50)])] { x := [], y := [] }).y.length :=
  ⟨(series_length_invariant "i" ["a", "b"]
      [[("i", 1), ("a", 2), ("b", 3)], [("i", 4), ("a", 5)]] "y" 0
      [(1, [("i", 5), ("y", 50)])]).1 (by decide) "a" (by decide),
   (series_length_invariant "i" ["a", "b"]
      [[("i", 1), ("a", 2), ("b", 3)], [("i", 4), ("a", 5)]] "y" 0
      [(1, [("i", 5), ("y", 50)])]).2 { x := [], y := [] } (by decide)⟩

/-- C6: one `update` step either leaves the plot data exactly as it was
(dropped envelope) or replaces it by a new value equal to the old columns
extended by exactly the one projected pair; in both cases the old columns
survive unchanged as prefixes. -/
theorem series_append_only_frame (x_key y_key : String) (S sq : Nat)
    (entry : Entry) (d : Data) :
    (applyRecord x_key y_key S sq entry d = d ∨
      applyRecord x_key y_key S sq entry d =
        { x := d.x ++ [getV entry x_key], y := d.y ++ [getV entry y_key] }) ∧
    (∃ tx ty, (applyRecord x_key y_key S sq entry d).x = d.x ++ tx ∧
      (applyRecord x_key y_key S sq entry d).y = d.y ++ ty) := by
  unfold applyRecord
  by_cases hc : (decide (sq > S) && hasKey entry x_key && hasKey entry y_key) = true
  · rw [if_pos hc]
    exact ⟨Or.inr rfl, [getV entry x_key], [getV entry y_key], rfl, rfl⟩
  · rw [if_neg hc]
    exact ⟨Or.inl rfl, [], [], by simp, by simp⟩

/-- C7: the claim describes the intent recorded in get_socket's docstring,
but the code crashes first: loading `mimir.plot` fails at line 56, so
`get_socket` never returns at all, for the non-persistent case as for any
other.  The intended follow-up does hold of the reconciler: from threshold
0, a first live envelope with sequence 1 carrying both keys is applied. -/
theorem get_socket_never_returns :
    loadPlotModule = Except.error (PyErr.parseError 56) ∧
    get_socket_failure = some (PyErr.parseError 56) ∧
    applyRecord "x" "y" 0 1 [("x", 5), ("y", 50)] { x := [], y := [] } =
      { x := [5], y := [50] } :=
  ⟨rfl, by decide, by decide⟩

/-- C8: one invocation of `update` receives exactly one envelope from the
channel - the channel advances by exactly its head - whether the envelope
is applied or dropped, and the data change is `applyRecord` on that one
envelope. -/
theorem update_consumes_one (x_key y_key : String) (S sq : Nat) (entry : Entry)
    (rest : List Envelope) (d : Data) :
    update x_key y_key S ((sq, entry) :: rest) d =
      (rest, applyRecord x_key y_key S sq entry d) := rfl

/-- C9 counterexample: the failure any use of `get_socket` surfaces is not
a NameError for `y_keys`; the module does not even compile. -/
theorem get_socket_failure_not_name_error :
    get_socket_failure ≠ some (PyErr.nameError "y_keys") := by
  decide

/-- C9 amended: line 56 of `plot.py` is not valid Python - its argument
`key=[] for key in y_keys` fits no production of the call-argument grammar,
while a plain keyword argument or a sole bare generator expression would -
so importing `mimir.plot` fails with a SyntaxError at line 56 and
`get_socket` can never be invoked, let alone return the documented tuple.
Were the line parenthesized into valid syntax, `y_keys` is still bound in
no scope `get_socket` can see (the parameter is `y_key`), so the line would
raise the claimed NameError then. -/
theorem get_socket_import_fails :
    get_socket_failure = some (PyErr.parseError 56) ∧
    singleArgumentValid line56Tokens = false ∧
    singleArgumentValid [Tok.name "key", Tok.eq, Tok.name "y_keys"] = true ∧
    singleArgumentValid
      [Tok.lbrack, Tok.rbrack, Tok.kwFor, Tok.name "key", Tok.kwIn,
       Tok.name "y_keys"] = true ∧
    "y_keys" ∉ getSocketScope := by
  refine ⟨by decide, by decide, by decide, by decide, by decide⟩

/-- C10: the drop threshold is fixed for the lifetime of the session.  After
any prefix of processed envelopes, the next envelope is judged against the
original `init_sequence = S` itself: it is appended exactly when its own
sequence number exceeds `S` and it carries both configured keys, no matter
what was processed before - no operation on the live path raises the
threshold. -/
theorem init_sequence_fixed (x_key y_key : String) (S : Nat)
    (pre : List Envelope) (sq : Nat) (entry : Entry) (d : Data) :
    driveLoop x_key y_key S (pre ++ [(sq, entry)]) d =
      if decide (sq > S) && hasKey entry x_key && hasKey entry y_key then
        { x := (driveLoop x_key y_key S pre d).x ++ [getV entry x_key],
          y := (driveLoop x_key y_key S pre d).y ++ [getV entry y_key] }
      else driveLoop x_key y_key S pre d := by
  induction pre generalizing d with
  | nil =>
      show applyRecord x_key y_key S sq entry d = _
      unfold applyRecord
      rfl
  | cons e t ih =>
      obtain ⟨s0, e0⟩ := e
      rw [List.cons_append, driveLoop_cons, driveLoop_cons, ih]

end Mimir
